import Mathlib

/-!
Verification of the flow-buster audio synchronization core.

The definitions below are a shallow embedding of the repository's
TypeScript source: `GameConfig.ts` (constants), `AudioManager.ts`
(tempo control, beat detection, beat simulation), `ObstacleManager`
(timing windows and hit judgment) and `GameScene` (harmony energy and
tempo-control gating).  JavaScript numbers are modelled as `ℚ`; the one
place where `NaN` matters (tempo requests) uses `Option ℚ` with `none`
standing for `NaN`, together with the JS semantics of `Math.min`,
`Math.max` and `===` on `NaN`.
-/

namespace FlowBuster

/-- Constant `GameConfig.MIN_TEMPO` (0.5). -/
def MIN_TEMPO : ℚ := 1/2

/-- Constant `GameConfig.MAX_TEMPO` (2.0). -/
def MAX_TEMPO : ℚ := 2

/-- Constant `GameConfig.DEFAULT_TEMPO` (1.0). -/
def DEFAULT_TEMPO : ℚ := 1

/-- Constant `GameConfig.TEMPO_TRANSITION_TIME` (0.3 seconds). -/
def TEMPO_TRANSITION_TIME : ℚ := 3/10

/-- Constant `GameConfig.MAX_HARMONY_ENERGY` (100). -/
def MAX_HARMONY_ENERGY : ℚ := 100

/-- Constant `GameConfig.HARMONY_DRAIN_RATE_SLOW` (20 per second at 0.5x). -/
def HARMONY_DRAIN_RATE_SLOW : ℚ := 20

/-- Constant `GameConfig.HARMONY_RESTORE_RATE` (10 per second at 1x). -/
def HARMONY_RESTORE_RATE : ℚ := 10

/-- Constant `GameConfig.HARMONY_PERFECT_BEAT_BONUS` (15). -/
def HARMONY_PERFECT_BEAT_BONUS : ℚ := 15

/-- Constant `GameConfig.HARMONY_GOOD_BEAT_BONUS` (5). -/
def HARMONY_GOOD_BEAT_BONUS : ℚ := 5

/-- Constant `GameConfig.GOOD_TIMING_WINDOW` (200 ms). -/
def GOOD_TIMING_WINDOW : ℚ := 200

/-- Constant `GameConfig.BEAT_DETECTION_SENSITIVITY` (0.7). -/
def BEAT_DETECTION_SENSITIVITY : ℚ := 7/10

/-- Constant `GameConfig.OBSTACLE_SPEED` (600 px per second). -/
def OBSTACLE_SPEED : ℚ := 600

/-- JS `Math.min` on two non-NaN numbers. -/
def jsNumMin (a b : ℚ) : ℚ := if a ≤ b then a else b

/-- JS `Math.max` on two non-NaN numbers. -/
def jsNumMax (a b : ℚ) : ℚ := if a ≤ b then b else a

/-- Phaser's `Phaser.Math.Clamp(value, min, max)`, which is
`Math.max(min, Math.min(max, value))`, on non-NaN numbers. -/
def phaserClamp (v lo hi : ℚ) : ℚ := jsNumMax lo (jsNumMin hi v)

/-- The clamp lands inside `[lo, hi]` whenever `lo ≤ hi`. -/
theorem phaserClamp_mem (v lo hi : ℚ) (h : lo ≤ hi) :
    lo ≤ phaserClamp v lo hi ∧ phaserClamp v lo hi ≤ hi := by
  unfold phaserClamp jsNumMax jsNumMin
  split_ifs <;> constructor <;> linarith

/-! ## Timing Judge (`ObstacleManager.onObstacleHit` / `updateObstacles`) -/

/-- Hit quality as classified by `ObstacleManager.onObstacleHit`. -/
inductive HitQuality
  | perfect
  | good
  | miss
deriving DecidableEq

/-- Lower bound of the Perfect window as computed in
`ObstacleManager.onObstacleHit`: `start + (end - start) * 0.25`. -/
def perfectStart (s e : ℚ) : ℚ := s + (e - s) * (1/4)

/-- Upper bound of the Perfect window as computed in
`ObstacleManager.onObstacleHit`: `end - (end - start) * 0.25`. -/
def perfectEnd (s e : ℚ) : ℚ := e - (e - s) * (1/4)

/-- The hit-quality classification of `ObstacleManager.onObstacleHit` for a
hit window `[s, e]` and an action at `hitTime`. -/
def hitQuality (s e hitTime : ℚ) : HitQuality :=
  if perfectStart s e ≤ hitTime ∧ hitTime ≤ perfectEnd s e then .perfect
  else if s ≤ hitTime ∧ hitTime ≤ e then .good
  else .miss

/-- The `timing` field of an obstacle (`'pending' | 'hit' | 'missed'`). -/
inductive ObstacleTiming
  | pending
  | hit
  | missed
deriving DecidableEq

/-- The per-frame timeout transition of `ObstacleManager.updateObstacles`:
a pending obstacle whose window end has passed becomes missed. -/
def updateObstacleTiming (tm : ObstacleTiming) (currentTime windowEnd : ℚ) :
    ObstacleTiming :=
  if tm = .pending ∧ currentTime > windowEnd then .missed else tm

/-- The collision path `ObstacleManager.checkObstacleHit` →
`onObstacleHit`: a colliding obstacle is only processed while `pending`,
and `onObstacleHit` then sets `timing = 'hit'` unconditionally and
classifies the quality from the hit window. -/
def collideObstacle (tm : ObstacleTiming) (hitTime s e : ℚ) :
    ObstacleTiming × Option HitQuality :=
  if tm = .pending then (.hit, some (hitQuality s e hitTime)) else (tm, none)

/-! ## Obstacle spawning (`ObstacleManager.spawnObstacle` /
`calculateArrivalTime`) -/

/-- The arrival-time estimate of `ObstacleManager.calculateArrivalTime`:
`now + ((spawnX - 200) / (OBSTACLE_SPEED * tempo)) * 1000` milliseconds. -/
def calculateArrivalTime (spawnX now tempo : ℚ) : ℚ :=
  now + ((spawnX - 200) / (OBSTACLE_SPEED * tempo)) * 1000

/-- The hit window assigned in `ObstacleManager.spawnObstacle`:
`[arrival - GOOD_TIMING_WINDOW/2, arrival + GOOD_TIMING_WINDOW/2]`. -/
def spawnHitWindow (arrivalTime : ℚ) : ℚ × ℚ :=
  (arrivalTime - GOOD_TIMING_WINDOW / 2, arrivalTime + GOOD_TIMING_WINDOW / 2)

/-! ## Theorems for C3, C9, C10 -/

/-- C3 counterexample: for the window `[1000, 1200]` the code's Perfect
window starts at 1050 (and ends at 1150), not 1025 (and 1175) as the
claim states; an action at 1040 ms lies inside the claimed Perfect window
`[1025, 1175]` yet is judged Good by the code. -/
theorem c3_perfect_window_counterexample :
    perfectStart 1000 1200 = 1050 ∧ perfectEnd 1000 1200 = 1150 ∧
    hitQuality 1000 1200 1040 = .good ∧
    ((1025 : ℚ) ≤ 1040 ∧ (1040 : ℚ) ≤ 1175) := by
  refine ⟨by norm_num [perfectStart], by norm_num [perfectEnd], ?_, by norm_num⟩
  norm_num [hitQuality, perfectStart, perfectEnd]

/-- C3 (amended): for the window `[1000, 1200]` the Perfect window — the
inner 50% of the hit window — is 1050–1150 ms; an action at 1100 ms is
judged Perfect, one at 1020 ms Good, one at 1250 ms Miss, and with no
action a pending obstacle is missed once the clock passes 1200 ms. -/
theorem c3_judgment_scenario :
    perfectStart 1000 1200 = 1050 ∧ perfectEnd 1000 1200 = 1150 ∧
    hitQuality 1000 1200 1100 = .perfect ∧
    hitQuality 1000 1200 1020 = .good ∧
    hitQuality 1000 1200 1250 = .miss ∧
    updateObstacleTiming .pending 1250 1200 = .missed := by
  refine ⟨by norm_num [perfectStart], by norm_num [perfectEnd], ?_, ?_, ?_, ?_⟩
  · norm_num [hitQuality, perfectStart, perfectEnd]
  · norm_num [hitQuality, perfectStart, perfectEnd]
  · norm_num [hitQuality, perfectStart, perfectEnd]
  · norm_num [updateObstacleTiming]

/-- C9 counterexample: a pending obstacle that collides at 900 ms, before
its hit window `[1000, 1200]` opens, still transitions to `hit` (with the
judgment classified `miss`), so `Pending → Hit` does not require a
successful in-window judgment. -/
theorem c9_out_of_window_hit_counterexample :
    collideObstacle .pending 900 1000 1200 = (.hit, some .miss) ∧
    ¬ ((1000 : ℚ) ≤ 900 ∧ (900 : ℚ) ≤ 1200) := by
  constructor
  · norm_num [collideObstacle, hitQuality, perfectStart, perfectEnd]
  · norm_num

/-- C9 (amended): `Hit` and `Missed` are terminal under both the collision
path and the timeout path; a `Pending` obstacle transitions to `Hit` on
any collision while pending (the recorded judgment may be Perfect, Good or
Miss, with no in-window requirement), and to `Missed` exactly when the
current time exceeds the window end. -/
theorem c9_timing_state_machine (hitTime s e now : ℚ) :
    collideObstacle .hit hitTime s e = (.hit, none) ∧
    collideObstacle .missed hitTime s e = (.missed, none) ∧
    updateObstacleTiming .hit now e = .hit ∧
    updateObstacleTiming .missed now e = .missed ∧
    collideObstacle .pending hitTime s e = (.hit, some (hitQuality s e hitTime)) ∧
    (now > e → updateObstacleTiming .pending now e = .missed) ∧
    (¬ now > e → updateObstacleTiming .pending now e = .pending) := by
  refine ⟨?_, ?_, ?_, ?_, ?_, ?_, ?_⟩
  · simp [collideObstacle]
  · simp [collideObstacle]
  · simp [updateObstacleTiming]
  · simp [updateObstacleTiming]
  · simp [collideObstacle]
  · intro h; simp [updateObstacleTiming, h]
  · intro h; simp [updateObstacleTiming, h]

/-- C9 witness: the timeout transition of the state machine theorem at a
concrete input. -/
theorem c9_timing_state_machine_witness :
    (1250 : ℚ) > 1200 ∧ updateObstacleTiming .pending 1250 1200 = .missed :=
  ⟨by norm_num, (c9_timing_state_machine 1100 1000 1200 1250).2.2.2.2.2.1 (by norm_num)⟩

/-- C10: for every spawn position, spawn time and tempo, the hit window is
centered exactly on the arrival-time estimate with constant total width
`GOOD_TIMING_WINDOW` (start = arrival − 100, end = arrival + 100), and the
derived inner Perfect window always has total width 100 ms. -/
theorem c10_hit_window_geometry (spawnX now tempo : ℚ) :
    (spawnHitWindow (calculateArrivalTime spawnX now tempo)).1 =
      calculateArrivalTime spawnX now tempo - 100 ∧
    (spawnHitWindow (calculateArrivalTime spawnX now tempo)).2 =
      calculateArrivalTime spawnX now tempo + 100 ∧
    (spawnHitWindow (calculateArrivalTime spawnX now tempo)).2 -
      (spawnHitWindow (calculateArrivalTime spawnX now tempo)).1 = GOOD_TIMING_WINDOW ∧
    ((spawnHitWindow (calculateArrivalTime spawnX now tempo)).1 +
      (spawnHitWindow (calculateArrivalTime spawnX now tempo)).2) / 2 =
      calculateArrivalTime spawnX now tempo ∧
    perfectEnd (spawnHitWindow (calculateArrivalTime spawnX now tempo)).1
        (spawnHitWindow (calculateArrivalTime spawnX now tempo)).2 -
      perfectStart (spawnHitWindow (calculateArrivalTime spawnX now tempo)).1
        (spawnHitWindow (calculateArrivalTime spawnX now tempo)).2 = 100 := by
  refine ⟨?_, ?_, ?_, ?_, ?_⟩ <;>
    simp [spawnHitWindow, GOOD_TIMING_WINDOW, perfectStart, perfectEnd] <;> ring

/-! ## Tempo Controller (`AudioManager.setTempo` / `applyTempo`) -/

/-- The tween created by `scene.tweens.addCounter` in
`AudioManager.setTempo`: a counter from `fromVal` to `toVal` over
`durationMs` milliseconds whose updates drive `applyTempo`. -/
structure Tween where
  fromVal : ℚ
  toVal : ℚ
  durationMs : ℚ
deriving DecidableEq

/-- The tempo-related state of `AudioManager`: the instantaneous
`currentTempo` (written by `applyTempo` on every tween update), the
`targetTempo`, and the in-flight transition tween, if any. -/
structure AMState where
  currentTempo : ℚ
  targetTempo : ℚ
  tween : Option Tween
deriving DecidableEq

/-- `AudioManager.setTempo` on non-NaN input.  It clamps the request with
`Phaser.Math.Clamp`, returns early (emitting nothing) when the clamped
value strictly equals `currentTempo`, and otherwise stops any in-flight
tween and starts a new one from the instantaneous `currentTempo` to the
clamped target over `TEMPO_TRANSITION_TIME * 1000` milliseconds.  The
second component is the payload of the emitted `tempoChange` event
(`none` on the early return). -/
def setTempo (s : AMState) (tempo : ℚ) : AMState × Option ℚ :=
  if phaserClamp tempo MIN_TEMPO MAX_TEMPO = s.currentTempo then (s, none)
  else
    (⟨s.currentTempo, phaserClamp tempo MIN_TEMPO MAX_TEMPO,
      some ⟨s.currentTempo, phaserClamp tempo MIN_TEMPO MAX_TEMPO,
            TEMPO_TRANSITION_TIME * 1000⟩⟩,
     some (phaserClamp tempo MIN_TEMPO MAX_TEMPO))

/-- The three tempo-control directions emitted by the input layer and
consumed by `GameScene.onTempoControl`. -/
inductive TempoDir
  | slow
  | fast
  | normal
deriving DecidableEq

/-- The target tempo `GameScene.onTempoControl` selects for each
direction. -/
def tempoTargetFor : TempoDir → ℚ
  | .slow => MIN_TEMPO
  | .fast => MAX_TEMPO
  | .normal => DEFAULT_TEMPO

/-- The part of `GameScene` state relevant to tempo-control gating. -/
structure SceneState where
  harmonyEnergy : ℚ
  audio : AMState
deriving DecidableEq

/-- `GameScene.onTempoControl`: when `harmonyEnergy <= 0` and the
direction is not `'normal'`, the handler returns immediately; otherwise
it forwards the direction's target tempo to `AudioManager.setTempo`. -/
def onTempoControl (s : SceneState) (d : TempoDir) : SceneState :=
  if s.harmonyEnergy ≤ 0 ∧ d ≠ .normal then s
  else { s with audio := (setTempo s.audio (tempoTargetFor d)).1 }

/-- A scene state with zero energy and an in-flight transition whose
target is `MIN_TEMPO`. -/
def sceneZeroEnergy : SceneState :=
  ⟨0, ⟨4/5, 1/2, some ⟨1, 1/2, 300⟩⟩⟩

/-- C1 counterexample: with zero energy and an in-flight target of 0.5, a
Faster request leaves the controller's target at 0.5 — the request is
dropped outright, and the target becomes neither the requested
`MAX_TEMPO` nor `DEFAULT_TEMPO` as the claim states. -/
theorem c1_zero_energy_counterexample :
    sceneZeroEnergy.harmonyEnergy = 0 ∧
    onTempoControl sceneZeroEnergy .fast = sceneZeroEnergy ∧
    (onTempoControl sceneZeroEnergy .fast).audio.targetTempo = 1/2 ∧
    ¬ ((1 : ℚ)/2 = DEFAULT_TEMPO) ∧ ¬ ((1 : ℚ)/2 = MAX_TEMPO) := by
  refine ⟨rfl, ?_, ?_, by norm_num [DEFAULT_TEMPO], by norm_num [MAX_TEMPO]⟩
  · simp [onTempoControl, sceneZeroEnergy]
  · simp [onTempoControl, sceneZeroEnergy]

/-- C1 (amended): when the Energy Budget reports zero (or less) energy, a
tempo request toward a non-default direction is ignored entirely: the
handler returns without calling `setTempo`, so the whole state — in
particular the controller's target — is unchanged. -/
theorem c1_zero_energy_request_ignored (s : SceneState) (d : TempoDir)
    (henergy : s.harmonyEnergy ≤ 0) (hdir : d ≠ .normal) :
    onTempoControl s d = s := by
  simp [onTempoControl, henergy, hdir]

/-- C1 witness: the amended behaviour at a concrete zero-energy state. -/
theorem c1_zero_energy_request_ignored_witness :
    sceneZeroEnergy.harmonyEnergy ≤ 0 ∧ TempoDir.fast ≠ TempoDir.normal ∧
    onTempoControl sceneZeroEnergy .fast = sceneZeroEnergy :=
  ⟨by norm_num [sceneZeroEnergy], by decide,
   c1_zero_energy_request_ignored sceneZeroEnergy .fast
     (by norm_num [sceneZeroEnergy]) (by decide)⟩

/-- An audio state mid-transition: instantaneous tempo 0.8 while a tween
toward target 0.5 is in flight. -/
def midTransition : AMState := ⟨4/5, 1/2, some ⟨1, 1/2, 300⟩⟩

/-- C5 counterexample: with instantaneous tempo 0.8 and an in-flight
target of 0.5, a request for 0.8 is a no-op (early return, no
`tempoChange` emitted, state unchanged) even though the clamped value 0.8
differs from the in-flight target 0.5 — so the no-op condition compares
against the instantaneous `currentTempo`, not the in-flight target. -/
theorem c5_noop_condition_counterexample :
    (setTempo midTransition (4/5)).2 = none ∧
    (setTempo midTransition (4/5)).1 = midTransition ∧
    phaserClamp (4/5) MIN_TEMPO MAX_TEMPO ≠ midTransition.targetTempo := by
  refine ⟨?_, ?_, ?_⟩ <;>
    norm_num [setTempo, midTransition, phaserClamp, jsNumMin, jsNumMax,
      MIN_TEMPO, MAX_TEMPO]

/-- C5 (amended): `setTempo` clamps the request into
`[MIN_TEMPO, MAX_TEMPO]`; it is a no-op exactly when the clamped value
equals the *current instantaneous* tempo (not the in-flight target);
otherwise it cancels any in-flight transition and begins a new eased
transition from the current instantaneous value to the clamped target
over the fixed `TEMPO_TRANSITION_TIME`. -/
theorem c5_setTempo_characterization (s : AMState) (tempo : ℚ) :
    ((setTempo s tempo).2 = none ↔
      phaserClamp tempo MIN_TEMPO MAX_TEMPO = s.currentTempo) ∧
    ((setTempo s tempo).2 ≠ none →
      (setTempo s tempo).1.currentTempo = s.currentTempo ∧
      (setTempo s tempo).1.targetTempo = phaserClamp tempo MIN_TEMPO MAX_TEMPO ∧
      (setTempo s tempo).1.tween =
        some ⟨s.currentTempo, phaserClamp tempo MIN_TEMPO MAX_TEMPO,
              TEMPO_TRANSITION_TIME * 1000⟩) ∧
    MIN_TEMPO ≤ phaserClamp tempo MIN_TEMPO MAX_TEMPO ∧
    phaserClamp tempo MIN_TEMPO MAX_TEMPO ≤ MAX_TEMPO := by
  refine ⟨?_, ?_, (phaserClamp_mem tempo MIN_TEMPO MAX_TEMPO
      (by norm_num [MIN_TEMPO, MAX_TEMPO])).1,
    (phaserClamp_mem tempo MIN_TEMPO MAX_TEMPO
      (by norm_num [MIN_TEMPO, MAX_TEMPO])).2⟩
  · unfold setTempo
    split_ifs with h
    · simp [h]
    · simp [h]
  · unfold setTempo
    split_ifs with h
    · simp
    · intro _; exact ⟨rfl, rfl, rfl⟩

/-- C5 witness: the characterization at a concrete state and request that
does start a transition. -/
theorem c5_setTempo_characterization_witness :
    (setTempo ⟨1, 1, none⟩ 3).2 ≠ none ∧
    (setTempo ⟨1, 1, none⟩ 3).1.currentTempo = 1 ∧
    (setTempo ⟨1, 1, none⟩ 3).1.targetTempo = phaserClamp 3 MIN_TEMPO MAX_TEMPO ∧
    (setTempo ⟨1, 1, none⟩ 3).1.tween =
      some ⟨1, phaserClamp 3 MIN_TEMPO MAX_TEMPO, TEMPO_TRANSITION_TIME * 1000⟩ := by
  have h2 : (setTempo ⟨1, 1, none⟩ 3).2 ≠ none := by
    norm_num [setTempo, phaserClamp, jsNumMin, jsNumMax, MIN_TEMPO, MAX_TEMPO]
    simp
  have h := (c5_setTempo_characterization ⟨1, 1, none⟩ 3).2.1 h2
  exact ⟨h2, h.1, h.2.1, h.2.2⟩

/-! ## NaN behaviour of `setTempo` (C8)

JavaScript numbers admit `NaN`; `Math.min`/`Math.max` return `NaN` when
any argument is `NaN`, and `NaN === x` is false for every `x`.  `none`
models `NaN`. -/

/-- JS `Math.min` with NaN propagation. -/
def jsMin : Option ℚ → Option ℚ → Option ℚ
  | some a, some b => some (jsNumMin a b)
  | _, _ => none

/-- JS `Math.max` with NaN propagation. -/
def jsMax : Option ℚ → Option ℚ → Option ℚ
  | some a, some b => some (jsNumMax a b)
  | _, _ => none

/-- JS strict equality `===` on numbers: false whenever either side is
`NaN`. -/
def jsStrictEq : Option ℚ → Option ℚ → Bool
  | some a, some b => decide (a = b)
  | _, _ => false

/-- `Phaser.Math.Clamp` on JS numbers:
`Math.max(min, Math.min(max, value))`. -/
def phaserClampJs (v lo hi : Option ℚ) : Option ℚ := jsMax lo (jsMin hi v)

/-- Whether a JS number is a real number inside `[MIN_TEMPO, MAX_TEMPO]`
(`NaN` is not). -/
def tempoInRange : Option ℚ → Bool
  | some q => decide (MIN_TEMPO ≤ q ∧ q ≤ MAX_TEMPO)
  | none => false

/-- `AudioManager.setTempo` followed by letting the tween run to
completion, on JS numbers: `onComplete` sets `currentTempo := targetTempo`,
so the steady-state tempo is the clamped request unless the early return
(`clampedTempo === currentTempo`) fired, in which case the tempo is
unchanged. -/
def setTempoSteady (currentTempo tempo : Option ℚ) : Option ℚ :=
  let clampedTempo := phaserClampJs tempo (some MIN_TEMPO) (some MAX_TEMPO)
  if jsStrictEq clampedTempo currentTempo then currentTempo else clampedTempo

/-- C8 counterexample: a `NaN` tempo request is not clamped into the
valid range — `Phaser.Math.Clamp` propagates `NaN`, the `===` early-return
guard fails, and after the transition completes the current tempo is
`NaN`, outside `[MIN_TEMPO, MAX_TEMPO]`. -/
theorem c8_nan_counterexample :
    setTempoSteady (some 1) none = none ∧
    tempoInRange (setTempoSteady (some 1) none) = false := by
  constructor
  · rfl
  · rfl

/-- C8 (amended): every *non-NaN* tempo request, however far out of
domain, is silently clamped: after the request and the completed
transition the current tempo is exactly the clamp of the request, which
lies in `[MIN_TEMPO, MAX_TEMPO]`.  A `NaN` request instead propagates
`NaN` into the tempo state. -/
theorem c8_real_requests_clamped (current : Option ℚ) (q : ℚ) :
    setTempoSteady current (some q) = some (phaserClamp q MIN_TEMPO MAX_TEMPO) ∧
    tempoInRange (setTempoSteady current (some q)) = true := by
  have hclamp : phaserClampJs (some q) (some MIN_TEMPO) (some MAX_TEMPO) =
      some (phaserClamp q MIN_TEMPO MAX_TEMPO) := rfl
  have hrange : MIN_TEMPO ≤ phaserClamp q MIN_TEMPO MAX_TEMPO ∧
      phaserClamp q MIN_TEMPO MAX_TEMPO ≤ MAX_TEMPO :=
    phaserClamp_mem q MIN_TEMPO MAX_TEMPO (by norm_num [MIN_TEMPO, MAX_TEMPO])
  have hmain : setTempoSteady current (some q) =
      some (phaserClamp q MIN_TEMPO MAX_TEMPO) := by
    unfold setTempoSteady
    rw [hclamp]
    cases current with
    | none => simp [jsStrictEq]
    | some c =>
      by_cases hc : phaserClamp q MIN_TEMPO MAX_TEMPO = c
      · simp [jsStrictEq, hc]
      · simp [jsStrictEq, hc]
  refine ⟨hmain, ?_⟩
  rw [hmain]
  simpa [tempoInRange] using hrange

/-! ## Energy Budget (`GameScene.updateHarmonyEnergy` / `onObstacleHit`) -/

/-- `GameScene.updateHarmonyEnergy`: drain (clamped at 0 from below) when
the tempo is below default, restore (clamped at `MAX_HARMONY_ENERGY` from
above) exactly at the default tempo, and no change above it.  `delta` is
the frame time in milliseconds. -/
def updateHarmonyEnergy (energy delta currentTempo : ℚ) : ℚ :=
  if currentTempo < DEFAULT_TEMPO then
    max 0 (energy - (HARMONY_DRAIN_RATE_SLOW * (DEFAULT_TEMPO - currentTempo)) * delta / 1000)
  else if currentTempo = DEFAULT_TEMPO then
    min MAX_HARMONY_ENERGY (energy + HARMONY_RESTORE_RATE * delta / 1000)
  else energy

/-- The energy mutation of `GameScene.onObstacleHit` for each hit
quality: fixed bonuses clamped to `MAX_HARMONY_ENERGY`; a miss leaves the
energy untouched. -/
def onObstacleHitEnergy (energy : ℚ) : HitQuality → ℚ
  | .perfect => min MAX_HARMONY_ENERGY (energy + HARMONY_PERFECT_BEAT_BONUS)
  | .good => min MAX_HARMONY_ENERGY (energy + HARMONY_GOOD_BEAT_BONUS)
  | .miss => energy

/-- One observable mutation of the harmony energy: a frame tick with a
delta time and the tempo read that frame, or an obstacle-hit event. -/
inductive EnergyEvent
  | tick (delta currentTempo : ℚ)
  | hitEvent (q : HitQuality)
deriving DecidableEq

/-- Applying one energy event. -/
def energyStep (energy : ℚ) : EnergyEvent → ℚ
  | .tick delta currentTempo => updateHarmonyEnergy energy delta currentTempo
  | .hitEvent q => onObstacleHitEnergy energy q

/-- Running a sequence of energy events. -/
def runEnergy (energy : ℚ) (evs : List EnergyEvent) : ℚ :=
  evs.foldl energyStep energy

/-- An event is well-formed when its frame delta time is non-negative
(the tempo may be anything). -/
def EnergyEvent.okDelta : EnergyEvent → Bool
  | .tick delta _ => decide (0 ≤ delta)
  | .hitEvent _ => true

/-- A single energy event keeps the energy inside
`[0, MAX_HARMONY_ENERGY]`. -/
theorem energyStep_bounds (energy : ℚ) (ev : EnergyEvent)
    (h0 : 0 ≤ energy) (h1 : energy ≤ MAX_HARMONY_ENERGY)
    (hok : ev.okDelta = true) :
    0 ≤ energyStep energy ev ∧ energyStep energy ev ≤ MAX_HARMONY_ENERGY := by
  cases ev with
  | tick delta currentTempo =>
    have hdelta : 0 ≤ delta := by simpa [EnergyEvent.okDelta] using hok
    simp only [energyStep, updateHarmonyEnergy]
    split_ifs with hslow hdef
    · constructor
      · exact le_max_left _ _
      · refine max_le (by norm_num [MAX_HARMONY_ENERGY]) ?_
        have hrate : 0 ≤ (HARMONY_DRAIN_RATE_SLOW * (DEFAULT_TEMPO - currentTempo)) * delta / 1000 := by
          have h1' : (0 : ℚ) ≤ HARMONY_DRAIN_RATE_SLOW * (DEFAULT_TEMPO - currentTempo) := by
            have : (0 : ℚ) ≤ DEFAULT_TEMPO - currentTempo := by linarith
            have hdr : (0 : ℚ) ≤ HARMONY_DRAIN_RATE_SLOW := by norm_num [HARMONY_DRAIN_RATE_SLOW]
            exact mul_nonneg hdr this
          positivity
        linarith
    · constructor
      · refine le_min (by norm_num [MAX_HARMONY_ENERGY]) ?_
        have : 0 ≤ HARMONY_RESTORE_RATE * delta / 1000 := by
          have : (0 : ℚ) ≤ HARMONY_RESTORE_RATE := by norm_num [HARMONY_RESTORE_RATE]
          positivity
        linarith
      · exact min_le_left _ _
    · exact ⟨h0, h1⟩
  | hitEvent q =>
    cases q with
    | perfect =>
      simp only [energyStep, onObstacleHitEnergy]
      refine ⟨le_min (by norm_num [MAX_HARMONY_ENERGY]) ?_, min_le_left _ _⟩
      have hb : (0 : ℚ) ≤ HARMONY_PERFECT_BEAT_BONUS := by
        norm_num [HARMONY_PERFECT_BEAT_BONUS]
      linarith
    | good =>
      simp only [energyStep, onObstacleHitEnergy]
      refine ⟨le_min (by norm_num [MAX_HARMONY_ENERGY]) ?_, min_le_left _ _⟩
      have hb : (0 : ℚ) ≤ HARMONY_GOOD_BEAT_BONUS := by
        norm_num [HARMONY_GOOD_BEAT_BONUS]
      linarith
    | miss => exact ⟨h0, h1⟩

/-- Running well-formed events keeps the energy inside
`[0, MAX_HARMONY_ENERGY]`. -/
theorem runEnergy_bounds (evs : List EnergyEvent) (energy : ℚ)
    (h0 : 0 ≤ energy) (h1 : energy ≤ MAX_HARMONY_ENERGY)
    (hok : ∀ ev ∈ evs, ev.okDelta = true) :
    0 ≤ runEnergy energy evs ∧ runEnergy energy evs ≤ MAX_HARMONY_ENERGY := by
  induction evs generalizing energy with
  | nil => exact ⟨h0, h1⟩
  | cons ev rest ih =>
    have hev : ev.okDelta = true := hok ev (List.mem_cons_self ev rest)
    have hstep := energyStep_bounds energy ev h0 h1 hev
    have hrest : ∀ e ∈ rest, EnergyEvent.okDelta e = true := fun e he =>
      hok e (List.mem_cons_of_mem ev he)
    simpa [runEnergy] using ih (energyStep energy ev) hstep.1 hstep.2 hrest

/-- C2: starting from any in-range energy value, after any prefix of any
sequence of tick and hit events with non-negative delta times (and
arbitrary tempo values), the harmony energy lies in
`[0, MAX_HARMONY_ENERGY]` — every mutation clamps, so no out-of-range
value is ever readable. -/
theorem c2_energy_invariant (energy : ℚ) (evs : List EnergyEvent) (n : ℕ)
    (h0 : 0 ≤ energy) (h1 : energy ≤ MAX_HARMONY_ENERGY)
    (hok : ∀ ev ∈ evs, ev.okDelta = true) :
    0 ≤ runEnergy energy (evs.take n) ∧
    runEnergy energy (evs.take n) ≤ MAX_HARMONY_ENERGY := by
  refine runEnergy_bounds (evs.take n) energy h0 h1 ?_
  intro ev hev
  exact hok ev (List.take_subset n evs hev)

/-- C2 witness: the invariant on a concrete pathological drain followed
by a perfect-hit bonus. -/
theorem c2_energy_invariant_witness :
    (0 : ℚ) ≤ 100 ∧ (100 : ℚ) ≤ MAX_HARMONY_ENERGY ∧
    (∀ ev ∈ [EnergyEvent.tick 100000 (1/2), EnergyEvent.hitEvent .perfect],
      ev.okDelta = true) ∧
    0 ≤ runEnergy 100 ([EnergyEvent.tick 100000 (1/2),
        EnergyEvent.hitEvent .perfect].take 2) ∧
    runEnergy 100 ([EnergyEvent.tick 100000 (1/2),
        EnergyEvent.hitEvent .perfect].take 2) ≤ MAX_HARMONY_ENERGY :=
  ⟨by norm_num, by norm_num [MAX_HARMONY_ENERGY], by decide,
   (c2_energy_invariant 100 [EnergyEvent.tick 100000 (1/2),
       EnergyEvent.hitEvent .perfect] 2 (by norm_num)
     (by norm_num [MAX_HARMONY_ENERGY]) (by decide)).1,
   (c2_energy_invariant 100 [EnergyEvent.tick 100000 (1/2),
       EnergyEvent.hitEvent .perfect] 2 (by norm_num)
     (by norm_num [MAX_HARMONY_ENERGY]) (by decide)).2⟩

/-! ## Beat Detector, Mode A (`AudioManager.updateBeatDetection`) -/

/-- The `beatDetector` record of `AudioManager`: the fixed-capacity
energy ring buffer (constructed as 43 zeros), its write index, the
previous frame's energy, and the stored variance. -/
structure BeatDetector where
  energyBuffer : List ℚ
  bufferIndex : ℕ
  lastEnergy : ℚ
  variance : ℚ
deriving DecidableEq

/-- The beat-detection state of `AudioManager`: the detector record plus
`lastBeatTime`, `beatCount`, `currentTempo`, the sensitivity
`beatThreshold` and the `isPlaying` flag. -/
structure BeatState where
  beatDetector : BeatDetector
  lastBeatTime : ℚ
  beatCount : ℕ
  currentTempo : ℚ
  beatThreshold : ℚ
  isPlaying : Bool
deriving DecidableEq

/-- `AudioManager.onBeatDetected`: records the beat time, increments the
sequence counter and emits a `beat` event whose sequence number is the
incremented counter. -/
def onBeatDetected (s : BeatState) (time : ℚ) : BeatState × ℕ :=
  ({ s with lastBeatTime := time, beatCount := s.beatCount + 1 },
   s.beatCount + 1)

/-- The detection formula of `AudioManager.updateBeatDetection` (and of
the spec): with the current energy pushed into the ring buffer, compute
the buffer mean and variance, `threshold = sensitivity × (1 + variance ×
0.5)`, and declare a beat iff `energy > threshold × mean`, `energy >
previousEnergy`, and `now − lastBeatTime > 60/200/currentTempo`. -/
def beatCondition (s : BeatState) (currentTime energy : ℚ) : Prop :=
  let buf := s.beatDetector.energyBuffer.set s.beatDetector.bufferIndex energy
  let n : ℚ := buf.length
  let avgEnergy := buf.sum / n
  let variance := (buf.map fun v => (v - avgEnergy)^2).sum / n
  let threshold := s.beatThreshold * (1 + variance * (1/2))
  energy > threshold * avgEnergy ∧ energy > s.beatDetector.lastEnergy ∧
    currentTime - s.lastBeatTime > 60 / 200 / s.currentTempo

/-- `AudioManager.updateBeatDetection`: energies below the 0.001 noise
floor return immediately (simulation handles beats) with no state change;
otherwise the energy is pushed into the ring buffer, the adaptive
threshold is computed, and a beat is emitted when the detection condition
holds.  `lastEnergy` is updated at the end of every non-gated call.  The
second component is the emitted beat sequence number, if any. -/
def updateBeatDetection (s : BeatState) (currentTime energy : ℚ) :
    BeatState × Option ℕ :=
  if energy < 1/1000 then (s, none)
  else
    let buf := s.beatDetector.energyBuffer.set s.beatDetector.bufferIndex energy
    let n : ℚ := buf.length
    let avgEnergy := buf.sum / n
    let variance := (buf.map fun v => (v - avgEnergy)^2).sum / n
    let threshold := s.beatThreshold * (1 + variance * (1/2))
    let det : BeatDetector :=
      ⟨buf, (s.beatDetector.bufferIndex + 1) % buf.length, energy, variance⟩
    if energy > threshold * avgEnergy ∧ energy > s.beatDetector.lastEnergy ∧
        currentTime - s.lastBeatTime > 60 / 200 / s.currentTempo then
      let r := onBeatDetected { s with beatDetector := det } currentTime
      (r.1, some r.2)
    else ({ s with beatDetector := det }, none)

/-- `AudioManager.startTrack`: marks playback active and resets the beat
counter and `lastBeatTime`; the `beatDetector` record — in particular the
energy ring buffer — is not touched. -/
def startTrack (s : BeatState) (now : ℚ) : BeatState :=
  { s with isPlaying := true, beatCount := 0, lastBeatTime := now }

/-- The detector state as constructed by `AudioManager`: 43 zeros. -/
def initialBeatDetector : BeatDetector := ⟨List.replicate 43 0, 0, 0, 0⟩

/-- A fresh `AudioManager` beat state. -/
def initialBeatState : BeatState :=
  ⟨initialBeatDetector, 0, 0, DEFAULT_TEMPO, BEAT_DETECTION_SENSITIVITY, true⟩

/-- C4 counterexample: on a fresh state, an energy of 1/2000 at time 10
satisfies the claimed detection formula (the threshold test, the rising
energy test and the minimum interval test all pass), yet the update emits
no beat — and does not even touch the detector — because the energy is
below the 0.001 noise floor. -/
theorem c4_noise_floor_counterexample :
    beatCondition initialBeatState 10 (1/2000) ∧
    (updateBeatDetection initialBeatState 10 (1/2000)).2 = none ∧
    (updateBeatDetection initialBeatState 10 (1/2000)).1 = initialBeatState := by
  refine ⟨?_, ?_, ?_⟩
  · norm_num [beatCondition, initialBeatState, initialBeatDetector,
      List.replicate, List.set, DEFAULT_TEMPO, BEAT_DETECTION_SENSITIVITY]
  · norm_num [updateBeatDetection]
  · norm_num [updateBeatDetection]

/-- C4 (amended): whenever the energy is at or above the 0.001 noise
floor, `updateBeatDetection` declares a beat exactly when the claimed
formula holds: `energy > threshold × mean` with `threshold = sensitivity ×
(1 + variance × 0.5)` over the (pushed) EnergyHistory buffer, `energy >
previousEnergy`, and `now − lastBeatTime > 60/200/currentTempo`. -/
theorem c4_beat_iff_formula (s : BeatState) (currentTime energy : ℚ)
    (hfloor : ¬ energy < 1/1000) :
    ((updateBeatDetection s currentTime energy).2 ≠ none ↔
      beatCondition s currentTime energy) := by
  simp only [updateBeatDetection, beatCondition]
  rw [if_neg hfloor]
  split_ifs with hc
  · simpa using hc
  · simpa using hc

/-- C4 witness: the detection equivalence on a fresh state with a loud
frame, where a beat is indeed emitted. -/
theorem c4_beat_iff_formula_witness :
    ¬ ((1 : ℚ) < 1/1000) ∧
    ((updateBeatDetection initialBeatState 10 1).2 ≠ none ↔
      beatCondition initialBeatState 10 1) :=
  ⟨by norm_num, c4_beat_iff_formula initialBeatState 10 1 (by norm_num)⟩

/-- A beat state carrying stale data: a nonzero entry in the energy ring
buffer and a nonzero beat count. -/
def staleBeatState : BeatState :=
  ⟨⟨5 :: List.replicate 42 0, 3, 1/10, 0⟩, 9, 17, DEFAULT_TEMPO,
   BEAT_DETECTION_SENSITIVITY, true⟩

/-- C7 counterexample: starting a new track restarts the sequence counter
(the next emitted beat has sequence number 1) but leaves the EnergyHistory
ring buffer untouched — its stale nonzero entry survives, so the buffer is
not cleared to zeros as the claim states. -/
theorem c7_buffer_not_cleared_counterexample :
    (onBeatDetected (startTrack staleBeatState 42) 43).2 = 1 ∧
    (startTrack staleBeatState 42).beatDetector.energyBuffer =
      5 :: List.replicate 42 0 ∧
    (startTrack staleBeatState 42).beatDetector.energyBuffer ≠
      List.replicate 43 0 := by
  refine ⟨rfl, rfl, ?_⟩
  norm_num [startTrack, staleBeatState, List.replicate_succ]

/-- C7 (amended): `startTrack` resets the beat counter — the next emitted
BeatEvent has sequence number 1 — and records the new start time, but it
does not clear (or otherwise modify) the beat detector's EnergyHistory
ring buffer. -/
theorem c7_reset_behaviour (s : BeatState) (now time : ℚ) :
    (startTrack s now).beatCount = 0 ∧
    (onBeatDetected (startTrack s now) time).2 = 1 ∧
    (startTrack s now).beatDetector = s.beatDetector ∧
    (startTrack s now).lastBeatTime = now ∧
    (startTrack s now).isPlaying = true :=
  ⟨rfl, rfl, rfl, rfl, rfl⟩

/-! ## Beat Detector, Mode B (`AudioManager.simulateBeats` /
`pauseTrack` / `resumeTrack`)

`simulateBeats` installs a wall-clock interval timer firing every 500 ms;
each fire emits a beat only when `isPlaying` holds.  `pauseTrack` clears
`isPlaying`; `resumeTrack` sets it again provided a track buffer is
loaded.  Neither touches the timer, so the fire grid stays anchored at
the `startTrack` call (taken as time 0, times in seconds). -/

/-- A transport command sent to the `AudioManager` while the simulation
timer runs. -/
inductive TransportEvent
  | pause
  | resume
deriving DecidableEq

/-- Whether playback is active at time `t`, given the timestamped
pause/resume commands (in chronological order): `pauseTrack` clears
`isPlaying`, `resumeTrack` sets it only when the player reports a loaded
buffer, and playback starts active at time 0 (`startTrack`). -/
def simPlayingAt (loaded : Bool) (cmds : List (ℚ × TransportEvent)) (t : ℚ) : Bool :=
  cmds.foldl
    (fun p c =>
      if c.1 ≤ t then
        match c.2 with
        | .pause => false
        | .resume => p || loaded
      else p)
    true

/-- The beat timestamps emitted by the simulation timer among its first
`n` fires: the timer fires at wall times 0.5, 1.0, 1.5, … and each fire
emits a beat exactly when playback is active at that moment. -/
def simulatedBeatTimes (loaded : Bool) (cmds : List (ℚ × TransportEvent))
    (n : ℕ) : List ℚ :=
  (List.range n).filterMap fun (k : ℕ) =>
    if simPlayingAt loaded cmds (((k : ℚ) + 1) / 2) then
      some (((k : ℚ) + 1) / 2)
    else none

/-- The active transport time accumulated up to wall time `t`: the total
duration during which playback was active, for chronologically ordered
commands with timestamps below `t`. -/
def activeTransportTime (loaded : Bool) (cmds : List (ℚ × TransportEvent))
    (t : ℚ) : ℚ :=
  let st := cmds.foldl
    (fun (acc : ℚ × Bool × ℚ) c =>
      if c.1 ≤ t then
        (c.1,
         (match c.2 with
          | TransportEvent.pause => false
          | TransportEvent.resume => acc.2.1 || loaded),
         acc.2.2 + (if acc.2.1 then c.1 - acc.1 else 0))
      else acc)
    ((0 : ℚ), true, (0 : ℚ))
  st.2.2 + (if st.2.1 then t - st.1 else 0)

/-- A pause from 0.4 s to 0.6 s that straddles the timer fire at 0.5 s. -/
def pauseResumeCmds : List (ℚ × TransportEvent) :=
  [(2/5, .pause), (3/5, .resume)]

/-- C6 counterexample: with a loaded track, pausing at 0.4 s and resuming
at 0.6 s suppresses the timer fire at 0.5 s entirely; the first emitted
beat is the fire at wall time 1.0 s, which occurs after 0.8 s of active
transport time — not one beat per 0.5 s of active transport time. -/
theorem c6_active_time_counterexample :
    simulatedBeatTimes true pauseResumeCmds 2 = [1] ∧
    activeTransportTime true pauseResumeCmds 1 = 4/5 ∧
    (4 : ℚ)/5 ≠ 1/2 := by
  refine ⟨?_, ?_, by norm_num⟩
  · norm_num [simulatedBeatTimes, simPlayingAt, pauseResumeCmds,
      List.range_succ, List.filterMap]
  · norm_num [activeTransportTime, pauseResumeCmds]

/-- C6 (amended): the simulation emits beats exactly at the wall-clock
grid times 0.5·(k+1) at which playback is active — so no beat is emitted
while paused, the grid is never reset or shifted by pause/resume commands,
and a fire that lands inside a pause is lost rather than deferred. -/
theorem c6_beats_on_wall_grid (loaded : Bool)
    (cmds : List (ℚ × TransportEvent)) (n : ℕ) (t : ℚ) :
    t ∈ simulatedBeatTimes loaded cmds n ↔
      ∃ k : ℕ, k < n ∧ t = ((k : ℚ) + 1) / 2 ∧
        simPlayingAt loaded cmds t = true := by
  constructor
  · intro ht
    rcases List.mem_filterMap.mp ht with ⟨k, hk, hs⟩
    have hkn : k < n := List.mem_range.mp hk
    by_cases hp : simPlayingAt loaded cmds (((k : ℚ) + 1) / 2) = true
    · rw [if_pos hp] at hs
      have h := Option.some.inj hs
      exact ⟨k, hkn, h.symm, h ▸ hp⟩
    · rw [if_neg hp] at hs
      exact absurd hs (by simp)
  · rintro ⟨k, hk, rfl, hp⟩
    refine List.mem_filterMap.mpr ⟨k, List.mem_range.mpr hk, ?_⟩
    rw [if_pos hp]

end FlowBuster
